import Mathlib

/-!
Verification development for the worktree-resolution and editor-session
placement core of a git-worktree CLI (`rust-git-worktree`).

Paths are modelled as lists of components (`List String`); an absolute
path renders as `"/" ++ components joined by "/"`.  The ambient
filesystem and the external `tmux` process are modelled as explicit
record parameters, so every source function becomes a pure Lean
function of the code's inputs plus a world record.
-/

namespace RsWorktree

/-- Decidable equality for `Except`, needed to evaluate results of the
embedded fallible functions on concrete inputs. -/
instance {ε α : Type} [DecidableEq ε] [DecidableEq α] : DecidableEq (Except ε α)
  | .error e, .error f =>
      if h : e = f then .isTrue (by rw [h])
      else .isFalse (by intro hc; cases hc; exact h rfl)
  | .error _, .ok _ => .isFalse (by intro hc; cases hc)
  | .ok _, .error _ => .isFalse (by intro hc; cases hc)
  | .ok a, .ok b =>
      if h : a = b then .isTrue (by rw [h])
      else .isFalse (by intro hc; cases hc; exact h rfl)

/-- Rendering of an absolute path, mirroring `Path::display`. -/
def pathDisplay (p : List String) : String :=
  "/" ++ String.intercalate "/" p

/-- Occurrence of `needle` anywhere in `hay` (character lists). -/
def listContains (needle : List Char) : List Char → Bool
  | [] => needle.isEmpty
  | c :: rest => needle.isPrefixOf (c :: rest) || listContains needle rest

/-- Substring test mirroring Rust `str::contains(&str)`:
`containsStr hay needle` is true iff `needle` is empty or occurs in `hay`. -/
def containsStr (hay needle : String) : Bool :=
  listContains needle.data hay.data

/-- Here `strEndsWith s suffix` mirrors Rust `str::ends_with(&str)`. -/
def strEndsWith (s suffix : String) : Bool :=
  suffix.data.isSuffixOf s.data

/-- Here `strTrim` mirrors Rust `str::trim`: drop whitespace on both ends. -/
def strTrim (s : String) : String :=
  ⟨((s.data.dropWhile Char.isWhitespace).reverse.dropWhile Char.isWhitespace).reverse⟩

/-- Split at the first occurrence of `sep`, mirroring `str::split_once`. -/
def splitOnceChar (sep : Char) : List Char → Option (List Char × List Char)
  | [] => none
  | c :: rest =>
      if c == sep then some ([], rest)
      else
        match splitOnceChar sep rest with
        | some (a, b) => some (c :: a, b)
        | none => none

/-- Rust `line.split_once(':')` on strings. -/
def splitOnceColon (s : String) : Option (String × String) :=
  (splitOnceChar ':' s.data).map fun p => (String.mk p.1, String.mk p.2)

/-- Split a character list on every occurrence of `sep`. -/
def splitOnChar (sep : Char) : List Char → List (List Char)
  | [] => [[]]
  | c :: rest =>
      let r := splitOnChar sep rest
      if c == sep then [] :: r
      else
        match r with
        | [] => [[c]]
        | h :: t => (c :: h) :: t

/-- Strip one trailing carriage return, as Rust `str::lines` does per line. -/
def stripCRChars (cs : List Char) : List Char :=
  match cs.reverse with
  | '\r' :: rest => rest.reverse
  | _ => cs

/-- Mirrors Rust `str::lines`: split on `'\n'`, drop the final empty
piece produced by a trailing newline, strip a trailing `'\r'` per line. -/
def rustLines (s : String) : List String :=
  let parts := splitOnChar '\n' s.data
  let parts :=
    match parts.reverse with
    | [] :: rest => rest.reverse
    | _ => parts
  parts.map fun cs => String.mk (stripCRChars cs)

/-- Exit status of a finished child process (`std::process::ExitStatus`):
either a normal exit with a code, or termination by signal (no code). -/
inductive ExitStatus where
  | exited (code : Int)
  | signal
deriving DecidableEq

/-- Embeds `ExitStatus::success`: true exactly for a normal exit with code 0. -/
def ExitStatus.success : ExitStatus → Bool
  | .exited 0 => true
  | _ => false

/-- Embeds `status.code().unwrap_or(d)`. -/
def ExitStatus.codeOr (st : ExitStatus) (d : Int) : Int :=
  match st with
  | .exited c => c
  | .signal => d

/-- Ambient filesystem: existence and canonicalization of paths.
`canonicalize` returns `none` when the OS call fails (broken symlink,
permission, race), mirroring the fallible `Path::canonicalize`. -/
structure FS where
  pathExists : List String → Bool
  canonicalize : List String → Option (List String)

/-- Embeds `ResolvedWorktree` from `commands/open/mod.rs`: display name and
canonical absolute path. -/
structure ResolvedWorktree where
  name : String
  path : List String
deriving DecidableEq

/-- Errors produced by `resolve_by_name` / `resolve_by_path` (the source
uses `eyre!` messages; the constructors keep the data each message names). -/
inductive ResolveError where
  | notFound (name : String)
  | ambiguous (name : String) (displays : List String)
  | missingOnDisk (display : String) (path : List String)
  | resolutionFailed (path : List String)
  | pathNotFound (path : List String)
deriving DecidableEq

/-- The exact `eyre!` message text each `ResolveError` renders to. -/
def ResolveError.message : ResolveError → String
  | .notFound name =>
      "worktree `" ++ name ++ "` not found. Run `rsworktree ls` to view available worktrees."
  | .ambiguous name displays =>
      "worktree identifier `" ++ name ++ "` is ambiguous. Matches: " ++
        String.intercalate ", " displays
  | .missingOnDisk display path =>
      "worktree `" ++ display ++ "` is missing from `" ++ pathDisplay path ++ "`"
  | .resolutionFailed path =>
      "failed to resolve `" ++ pathDisplay path ++ "`"
  | .pathNotFound path =>
      "worktree path `" ++ pathDisplay path ++ "` does not exist"

/-- The per-entry match test of `resolve_by_name` (`is_match` in the
source): the display form equals the identifier, or ends with
`"/" ++ identifier`, or the entry's final path component equals it.
`fmt` is the external `format_worktree` display function. -/
def worktree_matches (fmt : List String → String) (name : String) (rel : List String) : Bool :=
  fmt rel == name || strEndsWith (fmt rel) ("/" ++ name) || rel.getLast? == some name

/-- The match list built by the enumeration loop of `resolve_by_name`:
each matching entry contributes one `(display, rel)` pair, in order. -/
def nameMatches (fmt : List String → String) (name : String) (entries : List (List String)) :
    List (String × List String) :=
  entries.filterMap fun rel =>
    if worktree_matches fmt name rel then some (fmt rel, rel) else none

/-- Embeds `resolve_by_name` from `commands/open/mod.rs`: collect matches, fail
on zero or several, check existence, canonicalize. -/
def resolve_by_name (fmt : List String → String) (fs : FS) (worktreesDir : List String)
    (entries : List (List String)) (name : String) : Except ResolveError ResolvedWorktree :=
  match nameMatches fmt name entries with
  | [] => .error (.notFound name)
  | [(display, rel)] =>
      let absolute := worktreesDir ++ rel
      if fs.pathExists absolute then
        match fs.canonicalize absolute with
        | some canonical => .ok ⟨display, canonical⟩
        | none => .error (.resolutionFailed absolute)
      else
        .error (.missingOnDisk display absolute)
  | more => .error (.ambiguous name (more.map Prod.fst))

/-- Embeds `resolve_by_path` from `commands/open/mod.rs`: require existence,
canonicalize, then derive the display name by stripping the
worktrees-dir prefix, falling back to the last component, then to the
raw rendered path. -/
def resolve_by_path (fmt : List String → String) (fs : FS) (worktreesDir : List String)
    (path : List String) : Except ResolveError ResolvedWorktree :=
  if fs.pathExists path then
    match fs.canonicalize path with
    | none => .error (.resolutionFailed path)
    | some canonical =>
        let display :=
          if worktreesDir.isPrefixOf canonical then
            fmt (canonical.drop worktreesDir.length)
          else
            match canonical.getLast? with
            | some n => n
            | none => pathDisplay canonical
        .ok ⟨display, canonical⟩
  else
    .error (.pathNotFound path)

/-- Embeds `HookName` from `hooks/mod.rs`. -/
inductive HookName where
  | PostCreate
deriving DecidableEq

/-- Embeds `HookName::as_str`. -/
def HookName.asStr : HookName → String
  | .PostCreate => "post-create"

/-- Embeds `HookContext` from `hooks/mod.rs`. -/
structure HookContext where
  worktree_name : String
  worktree_path : List String
  branch : String
  base_branch : Option String
  base_path : List String
deriving DecidableEq

/-- Embeds `HookRunner::hook_path`: `<rsworktree-dir>/hooks/<hook-name>`
(`HOOKS_DIR = "hooks"`). -/
def hook_path (rsworktreeDir : List String) (hook : HookName) : List String :=
  rsworktreeDir ++ ["hooks", hook.asStr]

/-- The description of a spawned child process: program path, working
directory, and the environment variables injected by the caller. -/
structure SpawnSpec where
  program : List String
  cwd : List String
  env : List (String × String)
deriving DecidableEq

/-- The environment injected by `HookRunner::run_hook` via the chain of
`.env(...)` calls, in source order.  Path values render as the path
text (`Path::display`); a missing base branch becomes `""`
(`unwrap_or("")`). -/
def hookEnv (ctx : HookContext) : List (String × String) :=
  [("RSWORKTREE_NAME", ctx.worktree_name),
   ("RSWORKTREE_PATH", pathDisplay ctx.worktree_path),
   ("RSWORKTREE_BRANCH", ctx.branch),
   ("RSWORKTREE_BASE_BRANCH", ctx.base_branch.getD ""),
   ("RSWORKTREE_BASE_PATH", pathDisplay ctx.base_path)]

/-- What `run_hook` did: skipped (hook absent), skipped with a warning
(hook not executable, nothing spawned), or ran the hook process with
the given spawn description and exit status. -/
inductive HookOutcome where
  | skippedAbsent
  | skippedNotExecutable
  | ran (spawn : SpawnSpec) (status : ExitStatus)
deriving DecidableEq

/-- The warnings `run_hook` prints to stderr, in structured form: the
not-executable warning names the hook path; the non-zero-exit warning
contains the exit code (`status.code().unwrap_or(-1)`). -/
inductive HookWarning where
  | notExecutable (path : List String)
  | nonZeroExit (hook : HookName) (code : Int)
deriving DecidableEq

/-- The only error `run_hook` returns: the spawn itself failed
(`wrap_err`: "failed to execute hook `<path>`"). -/
inductive HookError where
  | spawnFailed (path : List String)
deriving DecidableEq

/-- Ambient state the hook runner consults: whether the hook file at
`hook_path` exists, whether it is executable (`mode & 0o111 != 0` on
unix), and the result of spawning a command (`none` = the OS could not
spawn it, `some st` = it ran to exit status `st`). -/
structure HookWorld where
  hookExists : Bool
  executable : Bool
  spawnResult : SpawnSpec → Option ExitStatus

/-- Embeds `HookRunner::run_hook` from `hooks/mod.rs`: absent hook is a no-op
success; a non-executable hook warns and succeeds; an executable hook
is spawned with cwd = worktree path and the `hookEnv` environment;
spawn failure is the only error; a non-zero exit only warns. -/
def run_hook (w : HookWorld) (rsworktreeDir : List String) (hook : HookName)
    (ctx : HookContext) : Except HookError (HookOutcome × List HookWarning) :=
  let hp := hook_path rsworktreeDir hook
  if !w.hookExists then
    .ok (.skippedAbsent, [])
  else if !w.executable then
    .ok (.skippedNotExecutable, [.notExecutable hp])
  else
    let spec : SpawnSpec := ⟨hp, ctx.worktree_path, hookEnv ctx⟩
    match w.spawnResult spec with
    | none => .error (.spawnFailed hp)
    | some status =>
        if status.success then
          .ok (.ran spec status, [])
        else
          .ok (.ran spec status, [.nonZeroExit hook (status.codeOr (-1))])

/-- Embeds `EditorPreference` (editor collaborator): command and arguments. -/
structure EditorPreference where
  command : String
  args : List String
deriving DecidableEq

/-- Embeds `EditorPreferenceResolution` (editor collaborator): a resolved
preference, or a typed reason why none is configured. -/
inductive EditorPreferenceResolution where
  | Found (pref : EditorPreference)
  | Missing (reason : String)
deriving DecidableEq

/-- Captured output of an external query process (`Command::output`):
exit status plus captured stdout text. -/
structure ProcOutput where
  status : ExitStatus
  stdout : String
deriving DecidableEq

/-- A state-changing tmux command dispatched by the placement engine,
with the exact argument data the source passes. -/
inductive TmuxAction where
  | selectPane (target : String)
  | selectWindow (target : String)
  | newWindow (name : String) (cwd : String) (cmd : List String)
  | splitWindow (cwd : String) (cmd : String)
deriving DecidableEq

/-- Which topology query was being made when a spawn failed. -/
inductive TmuxQuery where
  | currentWindow
  | windows
  | panesCurrent
  | panesIn (window : String)
deriving DecidableEq

/-- Errors of `OpenCommand::execute_tmux`.  `queryFailed` corresponds to
the `wrap_err` on a query's `Command::output` call (spawn failure);
`actionSpawnFailed` to the `wrap_err` on an action's `Command::status`
call; `actionFailed` to a checked non-zero action status. -/
inductive TmuxError where
  | editorResolutionFailed (e : String)
  | noEditor (reason : String)
  | queryFailed (which : TmuxQuery)
  | actionSpawnFailed (act : TmuxAction)
  | actionFailed (act : TmuxAction)
deriving DecidableEq

/-- The terminal message `execute_tmux` prints on success. -/
inductive TmuxMsg where
  | switchedPane (pane : String)
  | switchedWindow (window : String)
  | createdWindow (window : String)
  | openedPane (editor : String)
deriving DecidableEq

/-- Ambient tmux session state: the editor-preference resolution and the
result of each external process call.  A query result of `none` means
the `tmux` binary could not be spawned; otherwise the captured output
(status and stdout) is returned.  `runAction` gives the exit status of
a dispatched action, `none` again meaning spawn failure. -/
structure TmuxWorld where
  resolveEditor : Except String EditorPreferenceResolution
  displayMessage : Option ProcOutput
  listWindows : Option ProcOutput
  listPanesCurrent : Option ProcOutput
  listPanesIn : String → Option ProcOutput
  runAction : TmuxAction → Option ExitStatus

/-- Embeds `OpenCommand::is_editor_command`: the running command contains one
of the recognized editor binary names. -/
def is_editor_command (cmd : String) : Bool :=
  ["vim", "nvim", "nano", "emacs", "code", "cursor", "webstorm", "rider", "idea"].any
    fun e => containsStr cmd e

/-- The editor-occupied test applied to one pane's running command:
`cmd.contains(editor_command) || self.is_editor_command(cmd)`. -/
def editorOccupied (editor_command cmd : String) : Bool :=
  containsStr cmd editor_command || is_editor_command cmd

/-- The pane-scan loop shared by `find_editor_pane` and
`find_editor_pane_in_window`: for each line, parse `id:command` via
`split_once(':')` (lines without `':'` are skipped) and return the
first pane id whose command is editor-occupied. -/
def scanPanes (editor_command : String) : List String → Option String
  | [] => none
  | line :: rest =>
      match splitOnceColon line with
      | some (pane_id, cmd) =>
          if editorOccupied editor_command cmd then some pane_id
          else scanPanes editor_command rest
      | none => scanPanes editor_command rest

/-- The parsed pane listing: `(pane_id, running_command)` pairs in
listing order, from the lines that contain a `':'`. -/
def parsePanes (lines : List String) : List (String × String) :=
  lines.filterMap splitOnceColon

/-- Embeds `OpenCommand::find_editor_pane`: list panes of the current window
(failing if the query cannot be spawned) and scan them. -/
def find_editor_pane (w : TmuxWorld) (editor_command : String) :
    Except TmuxError (Option String) :=
  match w.listPanesCurrent with
  | none => .error (.queryFailed .panesCurrent)
  | some out => .ok (scanPanes editor_command (rustLines out.stdout))

/-- Embeds `OpenCommand::find_editor_pane_in_window`: same scan over the panes
of a named window. -/
def find_editor_pane_in_window (w : TmuxWorld) (window_name editor_command : String) :
    Except TmuxError (Option String) :=
  match w.listPanesIn window_name with
  | none => .error (.queryFailed (.panesIn window_name))
  | some out => .ok (scanPanes editor_command (rustLines out.stdout))

/-- A run of the placement engine: the state-changing tmux commands it
dispatched, in order, and its final result. -/
structure TmuxRun where
  actions : List TmuxAction
  result : Except TmuxError TmuxMsg
deriving DecidableEq

/-- The tmux window name for a worktree:
`"<project>/<worktree-name>"`, project being the last component of the
repository root (`unwrap_or("unknown")`). -/
def windowName (repoRoot : List String) (resolved : ResolvedWorktree) : String :=
  (repoRoot.getLast?).getD "unknown" ++ "/" ++ resolved.name

/-- Embeds `OpenCommand::create_editor_pane`: re-resolve the editor preference
for its argument list, build `editor + args + path` joined by spaces,
and dispatch a horizontal `split-window` with cwd = worktree path. -/
def create_editor_pane (w : TmuxWorld) (resolved : ResolvedWorktree)
    (editor_command : String) (acc : List TmuxAction) : TmuxRun :=
  match w.resolveEditor with
  | .error e => ⟨acc, .error (.editorResolutionFailed e)⟩
  | .ok res =>
      let editor_args :=
        match res with
        | .Found pref => pref.args
        | _ => []
      let full_cmd :=
        String.intercalate " " ([editor_command] ++ editor_args ++ [pathDisplay resolved.path])
      let act := TmuxAction.splitWindow (pathDisplay resolved.path) full_cmd
      match w.runAction act with
      | none => ⟨acc ++ [act], .error (.actionSpawnFailed act)⟩
      | some st =>
          if st.success then ⟨acc ++ [act], .ok (.openedPane editor_command)⟩
          else ⟨acc ++ [act], .error (.actionFailed act)⟩

/-- Embeds `OpenCommand::execute_tmux` from `commands/open/mod.rs`: resolve the
editor, read the current window name (only the captured stdout, trimmed;
the query's exit status is never examined), then reuse an editor pane,
switch window, split a pane, or create a new window. -/
def execute_tmux (w : TmuxWorld) (repoRoot : List String) (resolved : ResolvedWorktree) :
    TmuxRun :=
  let window_name := windowName repoRoot resolved
  match w.resolveEditor with
  | .error e => ⟨[], .error (.editorResolutionFailed e)⟩
  | .ok (.Missing reason) => ⟨[], .error (.noEditor reason)⟩
  | .ok (.Found pref) =>
      let editor_command := pref.command
      match w.displayMessage with
      | none => ⟨[], .error (.queryFailed .currentWindow)⟩
      | some out =>
          let current_window_name := strTrim out.stdout
          if current_window_name == window_name then
            match find_editor_pane w editor_command with
            | .error e => ⟨[], .error e⟩
            | .ok (some pane_id) =>
                let act := TmuxAction.selectPane pane_id
                match w.runAction act with
                | none => ⟨[act], .error (.actionSpawnFailed act)⟩
                | some st =>
                    if st.success then ⟨[act], .ok (.switchedPane pane_id)⟩
                    else ⟨[act], .error (.actionFailed act)⟩
            | .ok none => create_editor_pane w resolved editor_command []
          else
            match w.listWindows with
            | none => ⟨[], .error (.queryFailed .windows)⟩
            | some lout =>
                let window_exists :=
                  (rustLines lout.stdout).any fun line => strTrim line == window_name
                if window_exists then
                  let act := TmuxAction.selectWindow window_name
                  match w.runAction act with
                  | none => ⟨[act], .error (.actionSpawnFailed act)⟩
                  | some st =>
                      if !st.success then ⟨[act], .error (.actionFailed act)⟩
                      else
                        match find_editor_pane_in_window w window_name editor_command with
                        | .error e => ⟨[act], .error e⟩
                        | .ok (some pane_id) =>
                            let act2 := TmuxAction.selectPane pane_id
                            match w.runAction act2 with
                            | none => ⟨[act, act2], .error (.actionSpawnFailed act2)⟩
                            | some st2 =>
                                if st2.success then
                                  ⟨[act, act2], .ok (.switchedWindow window_name)⟩
                                else ⟨[act, act2], .error (.actionFailed act2)⟩
                        | .ok none => create_editor_pane w resolved editor_command [act]
                else
                  let act := TmuxAction.newWindow window_name (pathDisplay resolved.path)
                    [editor_command, pathDisplay resolved.path]
                  match w.runAction act with
                  | none => ⟨[act], .error (.actionSpawnFailed act)⟩
                  | some st =>
                      if st.success then ⟨[act], .ok (.createdWindow window_name)⟩
                      else ⟨[act], .error (.actionFailed act)⟩

/-- Embeds `EditorLaunchStatus` (telemetry collaborator, per the spec's
`LaunchOutcome` data model). -/
inductive EditorLaunchStatus where
  | Success
  | PreferenceMissing
  | ConfigurationError
  | ExecutionFailure
deriving DecidableEq

/-- Embeds `LaunchOutcome`: status plus user-facing message. -/
structure LaunchOutcome where
  status : EditorLaunchStatus
  message : String
deriving DecidableEq

/-- One `log_editor_launch_attempt` telemetry record: worktree name,
rendered path, outcome status, message. -/
structure TelemetryRecord where
  name : String
  path : String
  status : EditorLaunchStatus
  message : String
deriving DecidableEq

/-- Modelled from the spec: `launch_worktree` (editor module, not under
`src/`).  With no configured editor preference it returns a
`PreferenceMissing` outcome with a guidance message (not an error);
with a preference it launches the editor, returning a `Success`
outcome, or an error when the spawn fails. -/
def launch_worktree (pref : Option EditorPreference) (spawnSucceeds : Bool) :
    Except String LaunchOutcome :=
  match pref with
  | none =>
      .ok ⟨.PreferenceMissing, "No editor configured. Set one to open worktrees automatically."⟩
  | some p =>
      if spawnSucceeds then .ok ⟨.Success, "Launched " ++ p.command⟩
      else .error ("failed to launch " ++ p.command)

/-- Embeds `OpenCommand::execute_direct` from `commands/open/mod.rs`, given the
result of its `launch_worktree` call: every branch logs exactly one
telemetry record (status `ConfigurationError` with the error text when
the call failed); `Success` and `PreferenceMissing` outcomes return
`Ok(())` (process exit code 0), every other branch returns the outcome
or error message as an error. -/
def execute_direct (launch : Except String LaunchOutcome) (resolved : ResolvedWorktree) :
    List TelemetryRecord × Except String Unit :=
  match launch with
  | .ok outcome =>
      let rec0 : TelemetryRecord :=
        ⟨resolved.name, pathDisplay resolved.path, outcome.status, outcome.message⟩
      match outcome.status with
      | .Success => ([rec0], .ok ())
      | .PreferenceMissing => ([rec0], .ok ())
      | _ => ([rec0], .error outcome.message)
  | .error e =>
      ([⟨resolved.name, pathDisplay resolved.path, .ConfigurationError, e⟩], .error e)

/-! ## Shared helpers and concrete instantiations -/

/-- Modelled from the spec: the display convention of the external
`format_worktree` collaborator — path separators preserved, i.e. the
relative path's components joined by `"/"`.  Used only to instantiate
the `fmt` parameter in witnesses and counterexamples; all general
theorems hold for every display function. -/
def fmtStd : List String → String :=
  fun rel => String.intercalate "/" rel

/-- Concrete tmux world for pane-search instantiations: currently in
window `repo/wt`, whose pane listing holds a shell pane and two `vim`
panes. -/
def wC4 : TmuxWorld :=
  ⟨.ok (.Found ⟨"vim", []⟩), some ⟨.exited 0, "repo/wt\n"⟩, some ⟨.exited 0, ""⟩,
   some ⟨.exited 0, "%0:zsh\n%1:vim\n%2:vim\n"⟩, fun _ => some ⟨.exited 0, ""⟩,
   fun _ => some (.exited 0)⟩

/-- Concrete tmux world in which both the current-window query and the
window-list query exit with status 1 (non-zero) while still producing
stdout, every action spawn succeeds, and the target window is absent. -/
def w3cex : TmuxWorld :=
  ⟨.ok (.Found ⟨"vim", []⟩), some ⟨.exited 1, "other"⟩, some ⟨.exited 1, ""⟩,
   some ⟨.exited 0, ""⟩, fun _ => some ⟨.exited 0, ""⟩, fun _ => some (.exited 0)⟩

/-- Concrete tmux world with an editor preference that carries a
configured argument (`vim --clean`), a current window different from
the target, and no window named after the target worktree. -/
def w5cex : TmuxWorld :=
  ⟨.ok (.Found ⟨"vim", ["--clean"]⟩), some ⟨.exited 0, "main"⟩, some ⟨.exited 0, "main\n"⟩,
   some ⟨.exited 0, ""⟩, fun _ => some ⟨.exited 0, ""⟩, fun _ => some (.exited 0)⟩

/-- Concrete tmux world with an argument-free editor preference and the
target window absent: the new-window scenario of the placement table. -/
def w5wit : TmuxWorld :=
  ⟨.ok (.Found ⟨"vim", []⟩), some ⟨.exited 0, "main"⟩, some ⟨.exited 0, "main\nscratch\n"⟩,
   some ⟨.exited 0, ""⟩, fun _ => some ⟨.exited 0, ""⟩, fun _ => some (.exited 0)⟩

/-- Concrete tmux worlds exercising each query-spawn-failure point:
current-window query unprocessable, pane-list query unprocessable while
inside the target window, window-list query unprocessable, and
named-window pane-list query unprocessable after a successful switch. -/
def w3a : TmuxWorld :=
  ⟨.ok (.Found ⟨"vim", []⟩), none, some ⟨.exited 0, ""⟩, some ⟨.exited 0, ""⟩,
   fun _ => some ⟨.exited 0, ""⟩, fun _ => some (.exited 0)⟩

/-- See `w3a`: pane-list query of the current window cannot be spawned. -/
def w3b : TmuxWorld :=
  ⟨.ok (.Found ⟨"vim", []⟩), some ⟨.exited 0, "repo/wt\n"⟩, some ⟨.exited 0, ""⟩, none,
   fun _ => some ⟨.exited 0, ""⟩, fun _ => some (.exited 0)⟩

/-- See `w3a`: window-list query cannot be spawned. -/
def w3c : TmuxWorld :=
  ⟨.ok (.Found ⟨"vim", []⟩), some ⟨.exited 0, "main"⟩, none, some ⟨.exited 0, ""⟩,
   fun _ => some ⟨.exited 0, ""⟩, fun _ => some (.exited 0)⟩

/-- See `w3a`: named-window pane-list query cannot be spawned. -/
def w3d : TmuxWorld :=
  ⟨.ok (.Found ⟨"vim", []⟩), some ⟨.exited 0, "main"⟩, some ⟨.exited 0, "main\nrepo/wt\n"⟩,
   some ⟨.exited 0, ""⟩, fun _ => none, fun _ => some (.exited 0)⟩

/-- The match list is one `(display, rel)` pair per matching entry, in
enumeration order. -/
theorem nameMatches_eq_filter (fmt : List String → String) (name : String)
    (entries : List (List String)) :
    nameMatches fmt name entries =
      (entries.filter fun r => worktree_matches fmt name r).map fun r => (fmt r, r) := by
  induction entries with
  | nil => rfl
  | cons r rest ih =>
      cases h : worktree_matches fmt name r with
      | true => simp [nameMatches, List.filterMap_cons, List.filter_cons, h, ih.symm]
      | false => simp [nameMatches, List.filterMap_cons, List.filter_cons, h, ih.symm]

/-- Lemma: `find?` returns the head of the first satisfying suffix. -/
theorem find?_first {α : Type} (p : α → Bool) (pre : List α) (x : α) (post : List α)
    (hpre : ∀ q ∈ pre, p q = false) (hx : p x = true) :
    (pre ++ x :: post).find? p = some x := by
  induction pre with
  | nil => simp [List.find?, hx]
  | cons a rest ih =>
      have ha : p a = false := hpre a (by simp)
      simp only [List.cons_append, List.find?, ha]
      exact ih fun q hq => hpre q (by simp [hq])

/-! ## Claims about the worktree resolver -/

/-- C1: for every worktree list in which exactly one entry matches the
identifier (the entry's display form equals it, or its display form
ends with `"/" ++ identifier`, or its final path component equals it —
the `worktree_matches` test), `resolve_by_name` returns that worktree,
with its display form as name and its canonicalized absolute path,
provided the path exists on disk (and, necessarily, canonicalizes). -/
theorem resolve_by_name_unique_match_ok (fmt : List String → String) (fs : FS)
    (dir : List String) (entries : List (List String)) (name : String)
    (rel c : List String)
    (huniq : entries.filter (fun r => worktree_matches fmt name r) = [rel])
    (hex : fs.pathExists (dir ++ rel) = true)
    (hcanon : fs.canonicalize (dir ++ rel) = some c) :
    resolve_by_name fmt fs dir entries name = .ok ⟨fmt rel, c⟩ := by
  have h := nameMatches_eq_filter fmt name entries
  rw [huniq] at h
  simp [resolve_by_name, h, hex, hcanon]

/-- C1 witness: a two-entry enumeration where exactly `a/foo` matches
`"foo"`, resolved on an all-existing identity-canonicalizing filesystem. -/
theorem resolve_by_name_unique_match_ok_witness :
    resolve_by_name fmtStd ⟨fun _ => true, fun p => some p⟩ ["wt"]
      [["a", "foo"], ["b", "bar"]] "foo" = .ok ⟨"a/foo", ["wt", "a", "foo"]⟩ :=
  resolve_by_name_unique_match_ok fmtStd ⟨fun _ => true, fun p => some p⟩ ["wt"]
    [["a", "foo"], ["b", "bar"]] "foo" ["a", "foo"] ["wt", "a", "foo"]
    (by decide) (by decide) (by decide)

/-- C2 (amended): the failure cases of `resolve_by_name` — zero matches
is `notFound` naming the identifier; two or more matches is `ambiguous`
listing every matching display form; a unique match whose absolute path
does not exist is `missingOnDisk` naming that path; a unique match
whose path exists but fails to canonicalize is `resolutionFailed`; and
with a unique, existing, canonicalizable match the resolution succeeds. -/
theorem resolve_by_name_error_characterization (fmt : List String → String) (fs : FS)
    (dir : List String) (name : String) :
    (∀ entries, nameMatches fmt name entries = [] →
        resolve_by_name fmt fs dir entries name = .error (.notFound name)) ∧
    (∀ entries, 2 ≤ (nameMatches fmt name entries).length →
        resolve_by_name fmt fs dir entries name =
          .error (.ambiguous name ((nameMatches fmt name entries).map Prod.fst))) ∧
    (∀ entries d rel, nameMatches fmt name entries = [(d, rel)] →
        fs.pathExists (dir ++ rel) = false →
        resolve_by_name fmt fs dir entries name = .error (.missingOnDisk d (dir ++ rel))) ∧
    (∀ entries d rel, nameMatches fmt name entries = [(d, rel)] →
        fs.pathExists (dir ++ rel) = true → fs.canonicalize (dir ++ rel) = none →
        resolve_by_name fmt fs dir entries name = .error (.resolutionFailed (dir ++ rel))) ∧
    (∀ entries d rel c, nameMatches fmt name entries = [(d, rel)] →
        fs.pathExists (dir ++ rel) = true → fs.canonicalize (dir ++ rel) = some c →
        resolve_by_name fmt fs dir entries name = .ok ⟨d, c⟩) := by
  refine ⟨?_, ?_, ?_, ?_, ?_⟩
  · intro entries h
    simp [resolve_by_name, h]
  · intro entries h
    rcases hm : nameMatches fmt name entries with _ | ⟨x, _ | ⟨y, rest⟩⟩
    · rw [hm] at h; simp at h
    · rw [hm] at h; simp at h
    · simp [resolve_by_name, hm]
  · intro entries d rel h hex
    simp [resolve_by_name, h, hex]
  · intro entries d rel h hex hc
    simp [resolve_by_name, h, hex, hc]
  · intro entries d rel c h hex hc
    simp [resolve_by_name, h, hex, hc]

/-- C2 witness: the five cases instantiated on concrete enumerations
and filesystems. -/
theorem resolve_by_name_error_characterization_witness :
    resolve_by_name fmtStd ⟨fun _ => true, fun p => some p⟩ ["wt"] [["a", "bar"]] "foo" =
        .error (.notFound "foo") ∧
    resolve_by_name fmtStd ⟨fun _ => true, fun p => some p⟩ ["wt"]
        [["a", "foo"], ["b", "foo"]] "foo" =
        .error (.ambiguous "foo" ["a/foo", "b/foo"]) ∧
    resolve_by_name fmtStd ⟨fun _ => false, fun p => some p⟩ ["wt"] [["a", "foo"]] "foo" =
        .error (.missingOnDisk "a/foo" ["wt", "a", "foo"]) ∧
    resolve_by_name fmtStd ⟨fun _ => true, fun _ => none⟩ ["wt"] [["a", "foo"]] "foo" =
        .error (.resolutionFailed ["wt", "a", "foo"]) ∧
    resolve_by_name fmtStd ⟨fun _ => true, fun p => some p⟩ ["wt"] [["a", "foo"]] "foo" =
        .ok ⟨"a/foo", ["wt", "a", "foo"]⟩ := by
  refine ⟨?_, ?_, ?_, ?_, ?_⟩
  · exact (resolve_by_name_error_characterization fmtStd
      ⟨fun _ => true, fun p => some p⟩ ["wt"] "foo").1 [["a", "bar"]] (by decide)
  · exact (resolve_by_name_error_characterization fmtStd
      ⟨fun _ => true, fun p => some p⟩ ["wt"] "foo").2.1 [["a", "foo"], ["b", "foo"]] (by decide)
  · exact (resolve_by_name_error_characterization fmtStd
      ⟨fun _ => false, fun p => some p⟩ ["wt"] "foo").2.2.1 [["a", "foo"]] "a/foo" ["a", "foo"]
      (by decide) (by decide)
  · exact (resolve_by_name_error_characterization fmtStd
      ⟨fun _ => true, fun _ => none⟩ ["wt"] "foo").2.2.2.1 [["a", "foo"]] "a/foo" ["a", "foo"]
      (by decide) (by decide) (by decide)
  · exact (resolve_by_name_error_characterization fmtStd
      ⟨fun _ => true, fun p => some p⟩ ["wt"] "foo").2.2.2.2 [["a", "foo"]] "a/foo" ["a", "foo"]
      ["wt", "a", "foo"] (by decide) (by decide) (by decide)

/-- C2 counterexample: resolution can fail although the match count is
usable — a unique match whose path exists on disk but whose
canonicalization fails yields a `resolutionFailed` error, which is none
of `notFound`, `ambiguous`, `missingOnDisk`. -/
theorem resolve_by_name_fails_beyond_match_count :
    List.filter (fun r => worktree_matches fmtStd "foo" r) [["a", "foo"]] = [["a", "foo"]] ∧
    FS.pathExists ⟨fun _ => true, fun _ => none⟩ ["wt", "a", "foo"] = true ∧
    resolve_by_name fmtStd ⟨fun _ => true, fun _ => none⟩ ["wt"] [["a", "foo"]] "foo" =
      .error (.resolutionFailed ["wt", "a", "foo"]) := by
  refine ⟨by decide, by decide, by decide⟩

/-- C9: `resolve_by_path` fails with `pathNotFound` when the input path
does not exist, with `resolutionFailed` when canonicalization fails,
and otherwise returns the canonicalized path with the display name
computed as: the path relative to the worktrees root when the canonical
path lies under it, else the last path component, else the raw rendered
canonical path. -/
theorem resolve_by_path_characterization (fmt : List String → String) (fs : FS)
    (dir : List String) :
    (∀ p, fs.pathExists p = false →
        resolve_by_path fmt fs dir p = .error (.pathNotFound p)) ∧
    (∀ p, fs.pathExists p = true → fs.canonicalize p = none →
        resolve_by_path fmt fs dir p = .error (.resolutionFailed p)) ∧
    (∀ p c, fs.pathExists p = true → fs.canonicalize p = some c →
        ∃ r, resolve_by_path fmt fs dir p = .ok r ∧ r.path = c ∧
          (dir.isPrefixOf c = true → r.name = fmt (c.drop dir.length)) ∧
          (dir.isPrefixOf c = false → ∀ n, c.getLast? = some n → r.name = n) ∧
          (dir.isPrefixOf c = false → c.getLast? = none → r.name = pathDisplay c)) := by
  refine ⟨?_, ?_, ?_⟩
  · intro p h
    simp [resolve_by_path, h]
  · intro p h hc
    simp [resolve_by_path, h, hc]
  · intro p c h hc
    refine ⟨⟨if dir.isPrefixOf c then fmt (c.drop dir.length)
        else match c.getLast? with
          | some n => n
          | none => pathDisplay c, c⟩, ?_, rfl, ?_, ?_, ?_⟩
    · simp [resolve_by_path, h, hc]
    · intro hpre
      simp [hpre]
    · intro hpre n hl
      simp [hpre, hl]
    · intro hpre hl
      simp [hpre, hl]

/-- C9 witness: the three cases on concrete paths — a missing path, an
existing path that fails to canonicalize, and an existing path under
the worktrees root. -/
theorem resolve_by_path_characterization_witness :
    resolve_by_path fmtStd ⟨fun _ => false, fun p => some p⟩ ["home", "wt"] ["other", "x"] =
        .error (.pathNotFound ["other", "x"]) ∧
    resolve_by_path fmtStd ⟨fun _ => true, fun _ => none⟩ ["home", "wt"] ["other", "x"] =
        .error (.resolutionFailed ["other", "x"]) ∧
    ∃ r, resolve_by_path fmtStd ⟨fun _ => true, fun p => some p⟩ ["home", "wt"]
        ["home", "wt", "f", "x"] = .ok r ∧ r.path = ["home", "wt", "f", "x"] ∧
        r.name = fmtStd ["f", "x"] := by
  refine ⟨?_, ?_, ?_⟩
  · exact (resolve_by_path_characterization fmtStd
      ⟨fun _ => false, fun p => some p⟩ ["home", "wt"]).1 ["other", "x"] (by decide)
  · exact (resolve_by_path_characterization fmtStd
      ⟨fun _ => true, fun _ => none⟩ ["home", "wt"]).2.1 ["other", "x"] (by decide) (by decide)
  · obtain ⟨r, h1, h2, h3, -, -⟩ := (resolve_by_path_characterization fmtStd
      ⟨fun _ => true, fun p => some p⟩ ["home", "wt"]).2.2 ["home", "wt", "f", "x"]
      ["home", "wt", "f", "x"] (by decide) (by decide)
    exact ⟨r, h1, h2, h3 (by decide)⟩

/-- C10: every enumerated entry contributes at most one element to the
match list even when it satisfies several match rules at once — the
match list is exactly one pair per matching entry — so an `ambiguous`
error can only arise from at least two entries of the enumeration
matching, never from one entry matching in multiple ways. -/
theorem resolve_by_name_one_match_per_entry (fmt : List String → String) (name : String)
    (entries : List (List String)) :
    nameMatches fmt name entries =
      ((entries.filter fun r => worktree_matches fmt name r).map fun r => (fmt r, r)) ∧
    (∀ (fs : FS) (dir : List String) (n : String) (ds : List String),
        resolve_by_name fmt fs dir entries name = .error (.ambiguous n ds) →
        2 ≤ (entries.filter fun r => worktree_matches fmt name r).length) := by
  refine ⟨nameMatches_eq_filter fmt name entries, ?_⟩
  intro fs dir n ds h
  have hlen : (entries.filter fun r => worktree_matches fmt name r).length =
      (nameMatches fmt name entries).length := by
    rw [nameMatches_eq_filter]
    simp
  rcases hm : nameMatches fmt name entries with _ | ⟨⟨d, rel⟩, _ | ⟨y, rest⟩⟩
  · simp [resolve_by_name, hm] at h
  · simp only [resolve_by_name, hm] at h
    split at h
    · split at h <;> simp_all
    · simp_all
  · rw [hlen, hm]
    simp

/-- C10 witness: a single entry matching both by display form and by
final component yields a unique resolution, not an ambiguity; two
entries sharing a final component are ambiguous. -/
theorem resolve_by_name_one_match_per_entry_witness :
    nameMatches fmtStd "foo" [["foo"]] = [("foo", ["foo"])] ∧
    resolve_by_name fmtStd ⟨fun _ => true, fun p => some p⟩ ["wt"]
      [["a", "foo"], ["b", "foo"]] "foo" = .error (.ambiguous "foo" ["a/foo", "b/foo"]) ∧
    2 ≤ (List.filter (fun r => worktree_matches fmtStd "foo" r)
      [["a", "foo"], ["b", "foo"]]).length := by
  refine ⟨by decide, by decide, ?_⟩
  exact (resolve_by_name_one_match_per_entry fmtStd "foo" [["a", "foo"], ["b", "foo"]]).2
    ⟨fun _ => true, fun p => some p⟩ ["wt"] "foo" ["a/foo", "b/foo"] (by decide)

/-! ## Claims about the hook runner -/

/-- C7: `run_hook` returns success in every case except spawn failure —
an absent hook is a silent no-op with nothing spawned; a present but
non-executable hook warns (naming the hook path) and succeeds with
nothing spawned; an executable hook exiting unsuccessfully warns with
the exit code (`code().unwrap_or(-1)`) and still succeeds; one exiting
successfully succeeds without warning; only a failed spawn is an
error, identifying the hook path. -/
theorem run_hook_failure_isolation (dir : List String) (hook : HookName)
    (ctx : HookContext) :
    (∀ w : HookWorld, w.hookExists = false →
        run_hook w dir hook ctx = .ok (.skippedAbsent, [])) ∧
    (∀ w : HookWorld, w.hookExists = true → w.executable = false →
        run_hook w dir hook ctx =
          .ok (.skippedNotExecutable, [.notExecutable (hook_path dir hook)])) ∧
    (∀ (w : HookWorld) (st : ExitStatus), w.hookExists = true → w.executable = true →
        w.spawnResult ⟨hook_path dir hook, ctx.worktree_path, hookEnv ctx⟩ = some st →
        st.success = false →
        run_hook w dir hook ctx =
          .ok (.ran ⟨hook_path dir hook, ctx.worktree_path, hookEnv ctx⟩ st,
               [.nonZeroExit hook (st.codeOr (-1))])) ∧
    (∀ (w : HookWorld) (st : ExitStatus), w.hookExists = true → w.executable = true →
        w.spawnResult ⟨hook_path dir hook, ctx.worktree_path, hookEnv ctx⟩ = some st →
        st.success = true →
        run_hook w dir hook ctx =
          .ok (.ran ⟨hook_path dir hook, ctx.worktree_path, hookEnv ctx⟩ st, [])) ∧
    (∀ w : HookWorld, w.hookExists = true → w.executable = true →
        w.spawnResult ⟨hook_path dir hook, ctx.worktree_path, hookEnv ctx⟩ = none →
        run_hook w dir hook ctx = .error (.spawnFailed (hook_path dir hook))) := by
  refine ⟨?_, ?_, ?_, ?_, ?_⟩
  · intro w h
    simp [run_hook, h]
  · intro w h1 h2
    simp [run_hook, h1, h2]
  · intro w st h1 h2 hsp hst
    simp [run_hook, h1, h2, hsp, hst]
  · intro w st h1 h2 hsp hst
    simp [run_hook, h1, h2, hsp, hst]
  · intro w h1 h2 hsp
    simp [run_hook, h1, h2, hsp]

/-- C7 witness: the five cases on concrete hook worlds (exit code 3 for
the warning case). -/
theorem run_hook_failure_isolation_witness :
    run_hook ⟨false, false, fun _ => none⟩ ["cfg"] .PostCreate
        ⟨"wt", ["home", "wt"], "feature/x", some "main", ["home", "repo"]⟩ =
        .ok (.skippedAbsent, []) ∧
    run_hook ⟨true, false, fun _ => none⟩ ["cfg"] .PostCreate
        ⟨"wt", ["home", "wt"], "feature/x", some "main", ["home", "repo"]⟩ =
        .ok (.skippedNotExecutable, [.notExecutable ["cfg", "hooks", "post-create"]]) ∧
    run_hook ⟨true, true, fun _ => some (.exited 3)⟩ ["cfg"] .PostCreate
        ⟨"wt", ["home", "wt"], "feature/x", some "main", ["home", "repo"]⟩ =
        .ok (.ran ⟨["cfg", "hooks", "post-create"], ["home", "wt"],
              hookEnv ⟨"wt", ["home", "wt"], "feature/x", some "main", ["home", "repo"]⟩⟩
              (.exited 3),
             [.nonZeroExit .PostCreate 3]) ∧
    run_hook ⟨true, true, fun _ => some (.exited 0)⟩ ["cfg"] .PostCreate
        ⟨"wt", ["home", "wt"], "feature/x", some "main", ["home", "repo"]⟩ =
        .ok (.ran ⟨["cfg", "hooks", "post-create"], ["home", "wt"],
              hookEnv ⟨"wt", ["home", "wt"], "feature/x", some "main", ["home", "repo"]⟩⟩
              (.exited 0), []) ∧
    run_hook ⟨true, true, fun _ => none⟩ ["cfg"] .PostCreate
        ⟨"wt", ["home", "wt"], "feature/x", some "main", ["home", "repo"]⟩ =
        .error (.spawnFailed ["cfg", "hooks", "post-create"]) := by
  refine ⟨?_, ?_, ?_, ?_, ?_⟩
  · exact (run_hook_failure_isolation ["cfg"] .PostCreate
      ⟨"wt", ["home", "wt"], "feature/x", some "main", ["home", "repo"]⟩).1
      ⟨false, false, fun _ => none⟩ rfl
  · exact (run_hook_failure_isolation ["cfg"] .PostCreate
      ⟨"wt", ["home", "wt"], "feature/x", some "main", ["home", "repo"]⟩).2.1
      ⟨true, false, fun _ => none⟩ rfl rfl
  · exact (run_hook_failure_isolation ["cfg"] .PostCreate
      ⟨"wt", ["home", "wt"], "feature/x", some "main", ["home", "repo"]⟩).2.2.1
      ⟨true, true, fun _ => some (.exited 3)⟩ (.exited 3) rfl rfl rfl (by decide)
  · exact (run_hook_failure_isolation ["cfg"] .PostCreate
      ⟨"wt", ["home", "wt"], "feature/x", some "main", ["home", "repo"]⟩).2.2.2.1
      ⟨true, true, fun _ => some (.exited 0)⟩ (.exited 0) rfl rfl rfl (by decide)
  · exact (run_hook_failure_isolation ["cfg"] .PostCreate
      ⟨"wt", ["home", "wt"], "feature/x", some "main", ["home", "repo"]⟩).2.2.2.2
      ⟨true, true, fun _ => none⟩ rfl rfl rfl

/-- C8: an executable hook is spawned with working directory equal to
the worktree path and with an injected environment containing exactly
`RSWORKTREE_NAME`, `RSWORKTREE_PATH`, `RSWORKTREE_BRANCH`,
`RSWORKTREE_BASE_BRANCH` (the empty string when no base branch is set)
and `RSWORKTREE_BASE_PATH`, whose values are the corresponding context
fields (paths rendered as path text). -/
theorem run_hook_spawn_contract (w : HookWorld) (dir : List String) (hook : HookName)
    (ctx : HookContext) (st : ExitStatus)
    (h1 : w.hookExists = true) (h2 : w.executable = true)
    (hsp : w.spawnResult ⟨hook_path dir hook, ctx.worktree_path, hookEnv ctx⟩ = some st) :
    ∃ warns, run_hook w dir hook ctx =
      .ok (.ran ⟨hook_path dir hook, ctx.worktree_path,
        [("RSWORKTREE_NAME", ctx.worktree_name),
         ("RSWORKTREE_PATH", pathDisplay ctx.worktree_path),
         ("RSWORKTREE_BRANCH", ctx.branch),
         ("RSWORKTREE_BASE_BRANCH", ctx.base_branch.getD ""),
         ("RSWORKTREE_BASE_PATH", pathDisplay ctx.base_path)]⟩ st, warns) := by
  have henv : hookEnv ctx =
      [("RSWORKTREE_NAME", ctx.worktree_name),
       ("RSWORKTREE_PATH", pathDisplay ctx.worktree_path),
       ("RSWORKTREE_BRANCH", ctx.branch),
       ("RSWORKTREE_BASE_BRANCH", ctx.base_branch.getD ""),
       ("RSWORKTREE_BASE_PATH", pathDisplay ctx.base_path)] := rfl
  rw [← henv]
  cases hst : st.success
  · exact ⟨[.nonZeroExit hook (st.codeOr (-1))], by simp [run_hook, h1, h2, hsp, hst]⟩
  · exact ⟨[], by simp [run_hook, h1, h2, hsp, hst]⟩

/-- C8 witness: a concrete context with no base branch — the injected
environment carries `""` for `RSWORKTREE_BASE_BRANCH` and the rendered
paths. -/
theorem run_hook_spawn_contract_witness :
    ∃ warns, run_hook ⟨true, true, fun _ => some (.exited 0)⟩ ["cfg"] .PostCreate
      ⟨"wt", ["home", "wt"], "feature/x", none, ["home", "repo"]⟩ =
      .ok (.ran ⟨["cfg", "hooks", "post-create"], ["home", "wt"],
        [("RSWORKTREE_NAME", "wt"),
         ("RSWORKTREE_PATH", "/home/wt"),
         ("RSWORKTREE_BRANCH", "feature/x"),
         ("RSWORKTREE_BASE_BRANCH", ""),
         ("RSWORKTREE_BASE_PATH", "/home/repo")]⟩ (.exited 0), warns) :=
  run_hook_spawn_contract ⟨true, true, fun _ => some (.exited 0)⟩ ["cfg"] .PostCreate
    ⟨"wt", ["home", "wt"], "feature/x", none, ["home", "repo"]⟩ (.exited 0) rfl rfl rfl

/-! ## Claims about the placement engine -/

/-- C4: the editor-pane search is the first-match scan of the parsed
pane listing — it returns exactly the first pane, in listing order,
whose running command contains the editor command token or matches the
recognized-editor allow-list (`editorOccupied`); it returns no pane iff
no listed pane satisfies that test; with several satisfying panes the
first encountered wins (no recency or focus heuristic); and both
`find_editor_pane` and `find_editor_pane_in_window` apply this scan to
the lines the pane-list query captured. -/
theorem find_editor_pane_first_match (ec : String) :
    (∀ lines, scanPanes ec lines =
        ((parsePanes lines).find? fun p => editorOccupied ec p.2).map Prod.fst) ∧
    (∀ lines, scanPanes ec lines = none ↔
        ∀ p ∈ parsePanes lines, editorOccupied ec p.2 = false) ∧
    (∀ lines pre x post, parsePanes lines = pre ++ x :: post →
        (∀ q ∈ pre, editorOccupied ec q.2 = false) → editorOccupied ec x.2 = true →
        scanPanes ec lines = some x.1) ∧
    (∀ (w : TmuxWorld) out, w.listPanesCurrent = some out →
        find_editor_pane w ec = .ok (scanPanes ec (rustLines out.stdout))) ∧
    (∀ (w : TmuxWorld) wn out, w.listPanesIn wn = some out →
        find_editor_pane_in_window w wn ec = .ok (scanPanes ec (rustLines out.stdout))) := by
  have h1 : ∀ lines, scanPanes ec lines =
      ((parsePanes lines).find? fun p => editorOccupied ec p.2).map Prod.fst := by
    intro lines
    induction lines with
    | nil => rfl
    | cons line rest ih =>
        cases hs : splitOnceColon line with
        | none =>
            simpa [scanPanes, parsePanes, List.filterMap_cons, hs] using ih
        | some pr =>
            rcases pr with ⟨pid, cmd⟩
            cases hocc : editorOccupied ec cmd with
            | true =>
                simp [scanPanes, parsePanes, List.filterMap_cons, hs, hocc, List.find?]
            | false =>
                simpa [scanPanes, parsePanes, List.filterMap_cons, hs, hocc, List.find?]
                  using ih
  refine ⟨h1, ?_, ?_, ?_, ?_⟩
  · intro lines
    rw [h1]
    simp [List.find?_eq_none]
  · intro lines pre x post hsplit hpre hx
    rw [h1, hsplit, find?_first _ pre x post hpre hx]
    rfl
  · intro w out h
    simp [find_editor_pane, h]
  · intro w wn out h
    simp [find_editor_pane_in_window, h]

/-- C4 witness: in a listing with a shell pane and two `vim` panes, the
scan picks the first `vim` pane (`%1`, not `%2`), both directly and
through `find_editor_pane` on a concrete world. -/
theorem find_editor_pane_first_match_witness :
    scanPanes "vim" ["%0:zsh", "%1:vim", "%2:vim"] = some "%1" ∧
    find_editor_pane wC4 "vim" = .ok (some "%1") := by
  constructor
  · exact (find_editor_pane_first_match "vim").2.2.1 ["%0:zsh", "%1:vim", "%2:vim"]
      [("%0", "zsh")] ("%1", "vim") [("%2", "vim")] (by decide) (by decide) (by decide)
  · have h := (find_editor_pane_first_match "vim").2.2.2.1 wC4 ⟨.exited 0,
      "%0:zsh\n%1:vim\n%2:vim\n"⟩ rfl
    rw [h]
    decide

/-- C3 (amended): each multiplexer topology query fails with an
inspection error exactly at spawn failure of the underlying process,
and the failure is surfaced as the command's error (no fallback to
direct launch); a non-zero exit status of a query process is not
detected — only the captured stdout is consumed (see the
counterexample theorem for the non-zero-exit behavior). -/
theorem execute_tmux_query_spawn_failures (root : List String) (r : ResolvedWorktree)
    (pref : EditorPreference) :
    (∀ w : TmuxWorld, w.resolveEditor = .ok (.Found pref) → w.displayMessage = none →
        execute_tmux w root r = ⟨[], .error (.queryFailed .currentWindow)⟩) ∧
    (∀ (w : TmuxWorld) (dm : ProcOutput), w.resolveEditor = .ok (.Found pref) →
        w.displayMessage = some dm → (strTrim dm.stdout == windowName root r) = true →
        w.listPanesCurrent = none →
        execute_tmux w root r = ⟨[], .error (.queryFailed .panesCurrent)⟩) ∧
    (∀ (w : TmuxWorld) (dm : ProcOutput), w.resolveEditor = .ok (.Found pref) →
        w.displayMessage = some dm → (strTrim dm.stdout == windowName root r) = false →
        w.listWindows = none →
        execute_tmux w root r = ⟨[], .error (.queryFailed .windows)⟩) ∧
    (∀ (w : TmuxWorld) (dm lout : ProcOutput) (st : ExitStatus),
        w.resolveEditor = .ok (.Found pref) →
        w.displayMessage = some dm → (strTrim dm.stdout == windowName root r) = false →
        w.listWindows = some lout →
        ((rustLines lout.stdout).any fun line => strTrim line == windowName root r) = true →
        w.runAction (.selectWindow (windowName root r)) = some st → st.success = true →
        w.listPanesIn (windowName root r) = none →
        execute_tmux w root r =
          ⟨[.selectWindow (windowName root r)],
           .error (.queryFailed (.panesIn (windowName root r)))⟩) := by
  refine ⟨?_, ?_, ?_, ?_⟩
  · intro w hed hdm
    simp [execute_tmux, hed, hdm]
  · intro w dm hed hdm hcur hp
    simp [execute_tmux, hed, hdm, hcur, find_editor_pane, hp]
  · intro w dm hed hdm hcur hlw
    simp [execute_tmux, hed, hdm, hcur, hlw]
  · intro w dm lout st hed hdm hcur hlw hany hra hst hpw
    simp [execute_tmux, hed, hdm, hcur, hlw, hany, hra, hst,
      find_editor_pane_in_window, hpw]

/-- C3 witness: the four spawn-failure points instantiated on concrete
worlds `w3a`–`w3d` for worktree `wt` of project `repo`. -/
theorem execute_tmux_query_spawn_failures_witness :
    execute_tmux w3a ["repo"] ⟨"wt", ["home", "wt"]⟩ =
      ⟨[], .error (.queryFailed .currentWindow)⟩ ∧
    execute_tmux w3b ["repo"] ⟨"wt", ["home", "wt"]⟩ =
      ⟨[], .error (.queryFailed .panesCurrent)⟩ ∧
    execute_tmux w3c ["repo"] ⟨"wt", ["home", "wt"]⟩ =
      ⟨[], .error (.queryFailed .windows)⟩ ∧
    execute_tmux w3d ["repo"] ⟨"wt", ["home", "wt"]⟩ =
      ⟨[.selectWindow "repo/wt"], .error (.queryFailed (.panesIn "repo/wt"))⟩ := by
  refine ⟨?_, ?_, ?_, ?_⟩
  · exact (execute_tmux_query_spawn_failures ["repo"] ⟨"wt", ["home", "wt"]⟩
      ⟨"vim", []⟩).1 w3a rfl rfl
  · exact (execute_tmux_query_spawn_failures ["repo"] ⟨"wt", ["home", "wt"]⟩
      ⟨"vim", []⟩).2.1 w3b ⟨.exited 0, "repo/wt\n"⟩ rfl rfl (by decide) rfl
  · exact (execute_tmux_query_spawn_failures ["repo"] ⟨"wt", ["home", "wt"]⟩
      ⟨"vim", []⟩).2.2.1 w3c ⟨.exited 0, "main"⟩ rfl rfl (by decide) rfl
  · exact (execute_tmux_query_spawn_failures ["repo"] ⟨"wt", ["home", "wt"]⟩
      ⟨"vim", []⟩).2.2.2 w3d ⟨.exited 0, "main"⟩ ⟨.exited 0, "main\nrepo/wt\n"⟩
      (.exited 0) rfl rfl (by decide) rfl (by decide) rfl (by decide) rfl

/-- C3 counterexample: both topology queries exit with status 1, yet no
`InspectionFailed`-style error is raised — execution proceeds on the
captured stdout and ends with a created window.  The `wrap_err` on each
query's `Command::output` call covers only spawn failure; the query's
`ExitStatus` is never examined. -/
theorem execute_tmux_nonzero_query_exit_not_an_error :
    w3cex.displayMessage = some ⟨.exited 1, "other"⟩ ∧
    w3cex.listWindows = some ⟨.exited 1, ""⟩ ∧
    execute_tmux w3cex ["repo"] ⟨"wt", ["home", "wt"]⟩ =
      ⟨[.newWindow "repo/wt" "/home/wt" ["vim", "/home/wt"]],
       .ok (.createdWindow "repo/wt")⟩ := by
  refine ⟨rfl, rfl, by decide⟩

/-- C5 (amended): when the target window name occurs in no window of
the session, the engine dispatches exactly one `new-window` action with
name `"<project>/<worktree-name>"` (project being the last component of
the repository root), working directory equal to the resolved worktree
path, and the window command consisting of the editor command followed
by the worktree path — the preference's configured arguments are not
part of this invocation; when that action exits successfully the run
reports "created window". -/
theorem execute_tmux_absent_window_creates (root : List String) (r : ResolvedWorktree)
    (pref : EditorPreference) (w : TmuxWorld) (dm lout : ProcOutput)
    (hed : w.resolveEditor = .ok (.Found pref))
    (hdm : w.displayMessage = some dm)
    (hcur : (strTrim dm.stdout == windowName root r) = false)
    (hlw : w.listWindows = some lout)
    (habs : ((rustLines lout.stdout).any fun line => strTrim line == windowName root r)
      = false) :
    (execute_tmux w root r).actions =
      [TmuxAction.newWindow (windowName root r) (pathDisplay r.path)
        [pref.command, pathDisplay r.path]] ∧
    (∀ st : ExitStatus,
      w.runAction (.newWindow (windowName root r) (pathDisplay r.path)
        [pref.command, pathDisplay r.path]) = some st → st.success = true →
      (execute_tmux w root r).result = .ok (.createdWindow (windowName root r))) := by
  constructor
  · cases hra : w.runAction (.newWindow (windowName root r) (pathDisplay r.path)
        [pref.command, pathDisplay r.path])
    · simp [execute_tmux, hed, hdm, hcur, hlw, habs, hra]
    · rename_i st
      cases hst : st.success
      · simp [execute_tmux, hed, hdm, hcur, hlw, habs, hra, hst]
      · simp [execute_tmux, hed, hdm, hcur, hlw, habs, hra, hst]
  · intro st hra hst
    simp [execute_tmux, hed, hdm, hcur, hlw, habs, hra, hst]

/-- C5 witness: concrete world `w5wit` (editor `vim`, no arguments,
target window absent) dispatches the expected `new-window` and reports
the created window. -/
theorem execute_tmux_absent_window_creates_witness :
    (execute_tmux w5wit ["repo"] ⟨"wt", ["home", "wt"]⟩).actions =
      [TmuxAction.newWindow "repo/wt" "/home/wt" ["vim", "/home/wt"]] ∧
    (execute_tmux w5wit ["repo"] ⟨"wt", ["home", "wt"]⟩).result =
      .ok (.createdWindow "repo/wt") :=
  ⟨(execute_tmux_absent_window_creates ["repo"] ⟨"wt", ["home", "wt"]⟩ ⟨"vim", []⟩ w5wit
      ⟨.exited 0, "main"⟩ ⟨.exited 0, "main\nscratch\n"⟩ rfl rfl (by decide) rfl
      (by decide)).1,
   (execute_tmux_absent_window_creates ["repo"] ⟨"wt", ["home", "wt"]⟩ ⟨"vim", []⟩ w5wit
      ⟨.exited 0, "main"⟩ ⟨.exited 0, "main\nscratch\n"⟩ rfl rfl (by decide) rfl
      (by decide)).2 (.exited 0) rfl (by decide)⟩

/-- C5 counterexample: with a configured editor argument (`--clean`)
and the target window absent, the dispatched `new-window` command is
`["vim", "/home/wt"]` — the configured arguments are not appended, so
the invocation is not the claimed `editor command + arguments + path`. -/
theorem execute_tmux_new_window_omits_editor_args :
    (execute_tmux w5cex ["repo"] ⟨"wt", ["home", "wt"]⟩).actions =
      [TmuxAction.newWindow "repo/wt" "/home/wt" ["vim", "/home/wt"]] ∧
    (execute_tmux w5cex ["repo"] ⟨"wt", ["home", "wt"]⟩).actions ≠
      [TmuxAction.newWindow "repo/wt" "/home/wt" ["vim", "--clean", "/home/wt"]] := by
  refine ⟨by decide, by decide⟩

/-! ## Claims about the direct launch fallback -/

/-- C6: direct launch with no configured editor preference yields a
`PreferenceMissing` outcome and `Ok(())` (process exit code 0); and for
every result of the `launch_worktree` call — success, preference
missing, other outcome, or error — exactly one telemetry record is
emitted, carrying the worktree name, the rendered worktree path, and
the branch's outcome status (`ConfigurationError` on the error branch). -/
theorem execute_direct_telemetry (resolved : ResolvedWorktree) :
    (∀ b : Bool, execute_direct (launch_worktree none b) resolved =
        ([⟨resolved.name, pathDisplay resolved.path, .PreferenceMissing,
           "No editor configured. Set one to open worktrees automatically."⟩], .ok ())) ∧
    (∀ launch : Except String LaunchOutcome, ∃ r1 : TelemetryRecord,
        (execute_direct launch resolved).1 = [r1] ∧
        r1.name = resolved.name ∧ r1.path = pathDisplay resolved.path ∧
        (∀ o : LaunchOutcome, launch = .ok o → r1.status = o.status) ∧
        (∀ e : String, launch = .error e → r1.status = .ConfigurationError)) := by
  constructor
  · intro b
    rfl
  · intro launch
    match launch with
    | .ok o =>
        rcases o with ⟨st, msg⟩
        refine ⟨⟨resolved.name, pathDisplay resolved.path, st, msg⟩, ?_, rfl, rfl, ?_, ?_⟩
        · cases st <;> rfl
        · intro o' h
          cases h
          rfl
        · intro e h
          cases h
    | .error e =>
        refine ⟨⟨resolved.name, pathDisplay resolved.path, .ConfigurationError, e⟩,
          rfl, rfl, rfl, ?_, ?_⟩
        · intro o h
          cases h
        · intro e' h
          cases h
          rfl

/-- C6 witness: the missing-preference launch on worktree `wt`, and the
single `ConfigurationError` record of a failed launch. -/
theorem execute_direct_telemetry_witness :
    execute_direct (launch_worktree none true) ⟨"wt", ["home", "wt"]⟩ =
      ([⟨"wt", "/home/wt", .PreferenceMissing,
         "No editor configured. Set one to open worktrees automatically."⟩], .ok ()) ∧
    ∃ r1 : TelemetryRecord,
      (execute_direct (.error "boom") ⟨"wt", ["home", "wt"]⟩).1 = [r1] ∧
      r1.name = "wt" ∧ r1.path = "/home/wt" ∧ r1.status = .ConfigurationError := by
  constructor
  · exact (execute_direct_telemetry ⟨"wt", ["home", "wt"]⟩).1 true
  · obtain ⟨r1, h1, h2, h3, -, h5⟩ :=
      (execute_direct_telemetry ⟨"wt", ["home", "wt"]⟩).2 (.error "boom")
    exact ⟨r1, h1, h2, h3, h5 "boom" rfl⟩

end RsWorktree
